import Mathlib

/-!
Verification development for the Kaspa wallet-monitoring bot
(`kaspa_bot.py`).  The Python source is shallowly embedded below:
the deduplication store, the transaction classifier, the notification
dispatch path, the polling cycle and the persistence snapshot are all
translated to executable Lean definitions, and the specification's
claims about them are settled as theorems.
-/

set_option maxRecDepth 2000

namespace KaspaBot

/-- Direction label of a notification, `"📥 Incoming"` vs `"📤 Outgoing"`
in the Python message format. -/
inductive Direction where
  | incoming
  | outgoing
deriving DecidableEq

/-- One entry of a transaction's `inputs` list.  The Python code reads
only `input.get('previous_outpoint_address', 'Unknown')`; a missing key
is modelled by `none`. -/
structure TxInput where
  previous_outpoint_address : Option String
deriving DecidableEq

/-- One entry of a transaction's `outputs` list.  The Python code reads
`output.get('script_public_key_address')` (missing key modelled by
`none`) and `output.get('amount', 0)`. -/
structure TxOutput where
  script_public_key_address : Option String
  amount : Nat
deriving DecidableEq

/-- A raw transaction record as consumed by the bot.  The Python code
reads `tx.get('transaction_id', '')`, so a missing identifier is
modelled by the empty string. -/
structure Transaction where
  transaction_id : String
  inputs : List TxInput
  outputs : List TxOutput
deriving DecidableEq

/-- The direction/counterparty/amount data computed inside
`send_transaction_notification` (lines 376-395 of `kaspa_bot.py`). -/
structure Classification where
  direction : Direction
  from_address : String
  to_address : String
  amount_sompi : Nat
deriving DecidableEq

/-- A record of one `application.bot.send_message` call: which chat it
went to, for which wallet and transaction, the classification that was
rendered into the text, and whether the messaging sink reported
success.  In the Python code a sink failure raises inside
`send_transaction_notification` and is swallowed by its
`except Exception` handler, so the call always returns normally;
`delivered` records the sink's outcome. -/
structure SentRecord where
  chat_id : Int
  wallet_address : String
  tx_hash : String
  classification : Classification
  delivered : Bool
deriving DecidableEq

/-- The bot state observed by the monitoring engine: the per-address
set of already-notified transaction ids (`self.notified_transactions`,
an address absent from the Python dict behaves exactly like one mapped
to the empty set, since every access auto-initializes it to `set()`),
plus the log of all dispatch attempts made so far. -/
structure BotState where
  notified_transactions : String → Finset String
  sent_messages : List SentRecord

/-- The empty bot state: no notified transactions, no messages sent. -/
def initState : BotState :=
  { notified_transactions := fun _ => ∅, sent_messages := [] }

/-- The set-level core of `KaspaBot.mark_transaction_notified`
(lines 73-86): insert the hash; if the resulting set has more than
1000 members, sort ascending (Python `sorted` on strings, i.e. the
lexicographic order) and keep only the last 800. -/
def mark_set (s : Finset String) (tx_hash : String) : Finset String :=
  let s' := insert tx_hash s
  if s'.card > 1000 then
    ((s'.sort (· ≤ ·)).drop (s'.card - 800)).toFinset
  else
    s'

/-- `KaspaBot.is_transaction_notified` (lines 67-71): membership test.
The Python auto-initialization of a missing key to `set()` does not
change membership, so the state is read-only here. -/
def is_transaction_notified (st : BotState) (wallet_address tx_hash : String) : Bool :=
  decide (tx_hash ∈ st.notified_transactions wallet_address)

/-- `KaspaBot.mark_transaction_notified` (lines 73-86) acting on the
bot state: update the given address's set by `mark_set`.  The trailing
`save_wallets()` call is pure persistence and carries no in-memory
state. -/
def mark_transaction_notified (st : BotState) (wallet_address tx_hash : String) : BotState :=
  { st with notified_transactions :=
      (Function.update st.notified_transactions wallet_address
        (mark_set (st.notified_transactions wallet_address) tx_hash)) }

/-- The classification logic of `send_transaction_notification`
(lines 376-395): a transaction is incoming iff some output pays the
watched wallet; incoming amounts sum the matching outputs' `amount`
fields, outgoing amounts sum all outputs' `amount` fields; the
counterparty is the first input's previous-outpoint address
(incoming) or the first output's destination (outgoing), with
`"Unknown"` as default. -/
def classify_transaction (wallet_address : String) (tx : Transaction) : Classification :=
  let is_incoming := tx.outputs.any (fun o => o.script_public_key_address == some wallet_address)
  if is_incoming then
    { direction := .incoming
      from_address :=
        match tx.inputs with
        | [] => "Unknown"
        | i :: _ => i.previous_outpoint_address.getD "Unknown"
      to_address := wallet_address
      amount_sompi :=
        ((tx.outputs.filter
            (fun o => o.script_public_key_address == some wallet_address)).map
          TxOutput.amount).sum }
  else
    { direction := .outgoing
      from_address := wallet_address
      to_address :=
        match tx.outputs with
        | [] => "Unknown"
        | o :: _ => o.script_public_key_address.getD "Unknown"
      amount_sompi := (tx.outputs.map TxOutput.amount).sum }

/-- `KaspaBot.send_transaction_notification` (lines 366-423).  The
messaging sink is abstracted as a boolean-valued function `sink` of
the chat id and transaction; `True` means the Telegram call delivered,
`False` means it raised or rejected.  Either way the surrounding
`except Exception` swallows the failure, so the function always
returns normally having made exactly one dispatch attempt, which is
appended to the log together with its outcome. -/
def send_transaction_notification (sink : Int → Transaction → Bool) (st : BotState)
    (chat_id : Int) (wallet_address : String) (tx : Transaction) : BotState :=
  { st with sent_messages := st.sent_messages ++
      [{ chat_id := chat_id
         wallet_address := wallet_address
         tx_hash := tx.transaction_id
         classification := classify_transaction wallet_address tx
         delivered := sink chat_id tx }] }

/-- The body of the `for tx in transactions[:10]` loop of
`KaspaBot.process_transactions` (lines 346-362): skip a transaction
whose id is empty/missing or already notified; otherwise attempt the
dispatch and then mark the transaction notified (the Python code marks
unconditionally after the dispatch attempt returns, which it always
does). -/
def process_one (sink : Int → Transaction → Bool) (chat_id : Int)
    (wallet_address : String) (st : BotState) (tx : Transaction) : BotState :=
  let tx_hash := tx.transaction_id
  if tx_hash ≠ "" ∧ is_transaction_notified st wallet_address tx_hash = false then
    mark_transaction_notified
      (send_transaction_notification sink st chat_id wallet_address tx)
      wallet_address tx_hash
  else
    st

/-- `KaspaBot.process_transactions` (lines 341-364): fold the loop
body over the first 10 fetched transactions, in the order returned. -/
def process_transactions (sink : Int → Transaction → Bool) (chat_id : Int)
    (wallet_address : String) (transactions : List Transaction) (st : BotState) : BotState :=
  (transactions.take 10).foldl (process_one sink chat_id wallet_address) st

/-- Outcome of the upstream HTTP fetch for one address: a response
with a status code and parsed body, or an exception (timeout,
connection error, malformed body). -/
inductive FetchOutcome where
  | success (status : Nat) (transactions : List Transaction)
  | failure
deriving DecidableEq

/-- `KaspaBot.check_transactions` (lines 293-308): return the parsed
body on HTTP 200; return `None` on any other status; the
`except Exception` handler turns every raised error into `None` as
well. -/
def check_transactions (fetch : String → FetchOutcome) (wallet_address : String) :
    Option (List Transaction) :=
  match fetch wallet_address with
  | .success status txs => if status = 200 then some txs else none
  | .failure => none

/-- One address's slice of the monitoring loop body
(lines 318-332 of `monitor_wallets`): fetch; on `None` (or an empty,
hence falsy, list) leave the state alone, otherwise process the
batch. -/
def monitor_address (fetch : String → FetchOutcome) (sink : Int → Transaction → Bool)
    (chat_id : Int) (st : BotState) (wallet_address : String) : BotState :=
  match check_transactions fetch wallet_address with
  | some txs => if txs ≠ [] then process_transactions sink chat_id wallet_address txs st else st
  | none => st

/-- The inner `for wallet_address in wallets` loop of
`monitor_wallets` for a single chat. -/
def monitor_wallet_list (fetch : String → FetchOutcome) (sink : Int → Transaction → Bool)
    (chat_id : Int) (st : BotState) (wallet_addresses : List String) : BotState :=
  wallet_addresses.foldl (monitor_address fetch sink chat_id) st

/-- One full monitoring cycle (the body of the `while True` loop of
`KaspaBot.monitor_wallets`, lines 314-335): iterate over every
`(chat_id, wallet list)` pair of the watch list. -/
def monitor_cycle (fetch : String → FetchOutcome) (sink : Int → Transaction → Bool)
    (watch : List (Int × List String)) (st : BotState) : BotState :=
  watch.foldl (fun st p => monitor_wallet_list fetch sink p.1 st p.2) st

/-- The seeding loop of `KaspaBot.initialize_wallet_history`
(lines 195-208): add the ids of the first 50 fetched transactions,
skipping empty ids, to the address's existing set (which is freshly
created empty at the only call site, inside `add_wallet`). -/
def seed_history (s : Finset String) (transactions : List Transaction) : Finset String :=
  (transactions.take 50).foldl
    (fun s tx => if tx.transaction_id ≠ "" then insert tx.transaction_id s else s) s

/-! ### Persistence: `save_wallets` / `load_wallets`

`json.dump` turns the integer chat-id keys of `self.wallets` into
decimal strings and the per-address sets into lists; `load_wallets`
parses each key back with `int(k)` and rebuilds each set with
`set(v)`.  The decimal string conversion is embedded below as
`intRepr` (what `str` produces for an `int`) and `intParse`
(the behaviour of `int()` on such canonical strings). -/

/-- The decimal digit characters, indexed by value. -/
def digitChar (d : Nat) : Char :=
  ['0', '1', '2', '3', '4', '5', '6', '7', '8', '9'].getD d '0'

/-- Inverse of `digitChar`: the value of a decimal digit character,
`none` for a non-digit. -/
def digitVal (c : Char) : Option Nat :=
  if c = '0' then some 0 else if c = '1' then some 1 else if c = '2' then some 2
  else if c = '3' then some 3 else if c = '4' then some 4 else if c = '5' then some 5
  else if c = '6' then some 6 else if c = '7' then some 7 else if c = '8' then some 8
  else if c = '9' then some 9 else none

/-- Decimal representation of a natural number, most significant digit
first — what Python's `str` produces for a non-negative `int`. -/
def natRepr (n : Nat) : List Char :=
  if _h : n < 10 then [digitChar n]
  else natRepr (n / 10) ++ [digitChar (n % 10)]
decreasing_by exact Nat.div_lt_self (by omega) (by omega)

/-- Left-to-right accumulation of decimal digits, failing on the first
non-digit character. -/
def parseDigits (acc : Option Nat) : List Char → Option Nat
  | [] => acc
  | c :: cs =>
      parseDigits (acc.bind (fun a => (digitVal c).map (fun d => 10 * a + d))) cs

/-- Parse a non-empty all-digit string as a natural number; this is
`int()` restricted to the canonical unsigned decimal strings it is fed
on load. -/
def natParse (cs : List Char) : Option Nat :=
  if cs = [] then none else parseDigits (some 0) cs

/-- Decimal representation of an integer: what `str` produces for a
Python `int`, including the leading minus sign for negatives
(Telegram group chat ids are negative). -/
def intRepr (i : Int) : List Char :=
  if i < 0 then '-' :: natRepr (-i).toNat else natRepr i.toNat

/-- `int()` on a canonical decimal string, signed. -/
def intParse (cs : List Char) : Option Int :=
  match cs with
  | [] => none
  | c :: rest =>
      if c = '-' then (natParse rest).map (fun n => -(Int.ofNat n))
      else (natParse (c :: rest)).map (fun n => Int.ofNat n)

/-- The in-memory data persisted by the bot: `self.wallets`
(chat id → watched addresses, insertion-ordered) and
`self.notified_transactions` (address → set of notified ids),
as association lists. -/
structure BotData where
  wallets : List (Int × List String)
  notified_transactions : List (String × Finset String)
deriving DecidableEq

/-- The JSON snapshot document written to `wallets_data.json`:
chat-id keys are decimal strings, notified sets are lists. -/
structure SnapshotDoc where
  wallets : List (List Char × List String)
  notified_transactions : List (String × List String)
deriving DecidableEq

/-- `KaspaBot.save_wallets` (lines 50-65): serialize chat-id keys to
decimal strings (done implicitly by `json.dump`) and each notified set
to a list of its members (here enumerated in sorted order, one of the
orders Python's `list(set)` may produce). -/
def save_wallets (d : BotData) : SnapshotDoc :=
  { wallets := d.wallets.map (fun p => (intRepr p.1, p.2))
    notified_transactions :=
      d.notified_transactions.map (fun p => (p.1, p.2.sort (· ≤ ·))) }

/-- The dict comprehension `{int(k): v for k, v in ...}` of
`load_wallets`: parse every key, failing the whole load if any key
fails to parse. -/
def parseWallets : List (List Char × List String) → Option (List (Int × List String))
  | [] => some []
  | p :: rest =>
      match intParse p.1, parseWallets rest with
      | some k, some tl => some ((k, p.2) :: tl)
      | _, _ => none

/-- `KaspaBot.load_wallets` (lines 29-48): parse each chat-id key back
with `int(k)` and rebuild each notified set with `set(v)`.  Any
failure is caught by the surrounding `except` and resets the state,
modelled by `none`. -/
def load_wallets (s : SnapshotDoc) : Option BotData :=
  match parseWallets s.wallets with
  | none => none
  | some ws =>
      some { wallets := ws
             notified_transactions :=
               s.notified_transactions.map (fun p => (p.1, p.2.toFinset)) }

/-! ### DedupStore reachability

The public operations touching `self.notified_transactions` during the
bot's life are `is_transaction_notified` (a pure membership query in
this embedding — its auto-initialization of a missing key to `set()`
does not change any membership), `mark_transaction_notified`, and the
backlog seeding performed by `initialize_wallet_history`, which the
caller `add_wallet` invokes only for an address whose set was just
created empty. -/

/-- One public DedupStore operation, as a step relation on the
per-address map of notified sets. -/
inductive DedupStep : (String → Finset String) → (String → Finset String) → Prop where
  | mark (m : String → Finset String) (a t : String) :
      DedupStep m (Function.update m a (mark_set (m a) t))
  | seed (m : String → Finset String) (a : String) (txs : List Transaction) :
      m a = ∅ →
      DedupStep m (Function.update m a (seed_history (m a) txs))
  | query (m : String → Finset String) (a t : String) :
      DedupStep m m

/-- A dedup map reachable from the empty initial state by public
operations. -/
def DedupReachable (m : String → Finset String) : Prop :=
  Relation.ReflTransGen DedupStep (fun _ => ∅) m

/-! ### Concrete witness data

A strictly increasing family of transaction ids, used to build
explicit states around the 1000/800 eviction threshold without
evaluating thousand-element sets in the kernel. -/

/-- `repId n` is the string of `n + 1` copies of `'a'`; the family is
strictly increasing in the lexicographic string order. -/
def repId (n : Nat) : String := String.mk (List.replicate (n + 1) 'a')

/-- The first `n` ids of the `repId` family, in increasing order. -/
def idList (n : Nat) : List String := (List.range n).map repId

/-- The set of the first 1000 witness ids: one short of the trim
threshold. -/
def bigSet : Finset String := (idList 1000).toFinset

/-- A bot state whose notified set already holds 1000 ids. -/
def bigState : BotState :=
  { notified_transactions := fun _ => bigSet, sent_messages := [] }

/-- A bot state whose notified set holds the single id `"b"`. -/
def oneState : BotState :=
  { notified_transactions := fun _ => {"b"}, sent_messages := [] }

/-- A concrete incoming transaction paying 5 KAS to `"kaspa:w"`. -/
def txIncoming : Transaction :=
  { transaction_id := "deadbeef"
    inputs := [{ previous_outpoint_address := some "kaspa:b" }]
    outputs := [{ script_public_key_address := some "kaspa:w", amount := 500000000 }] }

/-- A concrete transaction with an empty outputs list. -/
def txNoOutputs : Transaction :=
  { transaction_id := "t4"
    inputs := [{ previous_outpoint_address := some "kaspa:b" }]
    outputs := [] }

/-- A concrete transaction that touches `"kaspa:w"` on neither side:
its only output pays `"kaspa:other"` and its only input spends from
`"kaspa:third"`. -/
def txUnrelated : Transaction :=
  { transaction_id := "t5"
    inputs := [{ previous_outpoint_address := some "kaspa:third" }]
    outputs := [{ script_public_key_address := some "kaspa:other", amount := 100 }] }

/-- A concrete transaction with a missing (empty) identifier. -/
def txNoId : Transaction :=
  { transaction_id := "", inputs := [], outputs := [] }

/-- Eleven distinct fresh incoming transactions for `"kaspa:w"`. -/
def txBatch11 : List Transaction :=
  (List.range 11).map (fun n =>
    { transaction_id := String.mk (List.replicate (n + 1) 'b')
      inputs := []
      outputs := [{ script_public_key_address := some "kaspa:w", amount := 1 }] })

/-- A bot state in which every transaction of `txBatch11` is already
marked notified for every address. -/
def batchState : BotState :=
  { notified_transactions := fun _ => (txBatch11.map Transaction.transaction_id).toFinset
    sent_messages := [] }

/-- A messaging sink that always delivers. -/
def okSink : Int → Transaction → Bool := fun _ _ => true

/-- A messaging sink that always fails (rejects or throws). -/
def failSink : Int → Transaction → Bool := fun _ _ => false

/-- An upstream fetcher that always raises (timeout / connection
error). -/
def failFetch : String → FetchOutcome := fun _ => .failure

/-- An upstream fetcher that always answers HTTP 503 with an empty
body. -/
def errFetch : String → FetchOutcome := fun _ => .success 503 []

/-- An upstream fetcher that always answers HTTP 200 with the
eleven-transaction batch. -/
def batchFetch : String → FetchOutcome := fun _ => .success 200 txBatch11

/-! ### Helper lemmas about `mark_set` -/

/-- Marking never leaves more than 1000 ids in the set: either no trim
was needed, or the set was just cut down to 800 members. -/
theorem mark_set_card_le (s : Finset String) (t : String) :
    (mark_set s t).card ≤ 1000 := by
  unfold mark_set
  by_cases h : (insert t s).card > 1000
  · simp only [h, if_true]
    have hnd : ((insert t s).sort (· ≤ ·)).Nodup := Finset.sort_nodup _ _
    have hnd' : (((insert t s).sort (· ≤ ·)).drop ((insert t s).card - 800)).Nodup :=
      hnd.sublist (List.drop_sublist _ _)
    rw [List.toFinset_card_of_nodup hnd', List.length_drop, Finset.length_sort]
    omega
  · simp only [h, if_false]
    omega

/-- Whatever `mark_set` keeps was already in the set-plus-new-id. -/
theorem mark_set_subset (s : Finset String) (t : String) :
    mark_set s t ⊆ insert t s := by
  unfold mark_set
  by_cases h : (insert t s).card > 1000
  · simp only [h, if_true]
    intro x hx
    rw [List.mem_toFinset] at hx
    exact (Finset.mem_sort (α := String) (· ≤ ·)).1 (List.mem_of_mem_drop hx)
  · simp only [h, if_false]
    exact fun x hx => hx

/-- When the insertion stays within the 1000 bound no trim happens. -/
theorem mark_set_of_card_le (s : Finset String) (t : String)
    (h : (insert t s).card ≤ 1000) :
    mark_set s t = insert t s := by
  unfold mark_set
  simp only [gt_iff_lt, Nat.not_lt.2 h, if_false]

/-- The eviction branch of `mark_set`: when the insertion overflows
the 1000 bound, exactly 800 members survive, all drawn from the
inserted set, and every evicted member is strictly below every
retained member in the lexicographic string order. -/
theorem mark_set_evict (s : Finset String) (t : String)
    (h : (insert t s).card > 1000) :
    (mark_set s t).card = 800 ∧ mark_set s t ⊆ insert t s ∧
      ∀ x ∈ insert t s, x ∉ mark_set s t → ∀ y ∈ mark_set s t, x < y := by
  refine ⟨?_, mark_set_subset s t, ?_⟩
  · unfold mark_set
    simp only [h, if_true]
    have hnd : ((insert t s).sort (· ≤ ·)).Nodup := Finset.sort_nodup _ _
    have hnd' : (((insert t s).sort (· ≤ ·)).drop ((insert t s).card - 800)).Nodup :=
      hnd.sublist (List.drop_sublist _ _)
    rw [List.toFinset_card_of_nodup hnd', List.length_drop, Finset.length_sort]
    omega
  · intro x hx hnotx y hy
    unfold mark_set at hnotx hy
    simp only [h, if_true, List.mem_toFinset] at hnotx hy
    set l := (insert t s).sort (· ≤ ·) with hl
    set k := (insert t s).card - 800 with hk
    have hsorted : l.Pairwise (· < ·) := Finset.sort_sorted_lt (insert t s)
    have hsplit : l.take k ++ l.drop k = l := List.take_append_drop k l
    have hpair : (l.take k ++ l.drop k).Pairwise (· < ·) := by
      rw [hsplit]; exact hsorted
    have hsep := (List.pairwise_append.1 hpair).2.2
    have hxl : x ∈ l := (Finset.mem_sort (α := String) (· ≤ ·)).2 hx
    have hxtake : x ∈ l.take k := by
      rcases (List.mem_append.1 (by rw [hsplit]; exact hxl)) with h1 | h1
      · exact h1
      · exact absurd h1 hnotx
    exact hsep x hxtake y hy

/-- Folding `mark_set` over a list of ids that (together with the
starting set) stays within the 1000 bound is plain set union: no trim
ever fires. -/
theorem foldl_mark_set_eq_union (l : List String) (s : Finset String)
    (h : (s ∪ l.toFinset).card ≤ 1000) :
    l.foldl mark_set s = s ∪ l.toFinset := by
  induction l generalizing s with
  | nil => simp
  | cons a tl ih =>
      have hsub : insert a s ⊆ s ∪ (a :: tl).toFinset := by
        intro x hx
        rcases Finset.mem_insert.1 hx with rfl | hx
        · simp
        · exact Finset.mem_union_left _ hx
      have hcard : (insert a s).card ≤ 1000 :=
        le_trans (Finset.card_le_card hsub) h
      have hstep : mark_set s a = insert a s := mark_set_of_card_le s a hcard
      have hset : insert a s ∪ tl.toFinset = s ∪ (a :: tl).toFinset := by
        ext x
        simp only [Finset.mem_union, Finset.mem_insert, List.toFinset_cons, List.mem_toFinset]
        tauto
      rw [List.foldl_cons, hstep, ih (insert a s) (by rw [hset]; exact (by
        simpa using h)), hset]

/-- Folding `mark_set` never invents ids: the result is contained in
the starting set united with the marked ids. -/
theorem foldl_mark_set_subset (l : List String) (s : Finset String) :
    l.foldl mark_set s ⊆ s ∪ l.toFinset := by
  induction l generalizing s with
  | nil => simp
  | cons a tl ih =>
      rw [List.foldl_cons]
      refine subset_trans (ih (mark_set s a)) ?_
      intro x hx
      rcases Finset.mem_union.1 hx with hx | hx
      · rcases Finset.mem_insert.1 (mark_set_subset s a hx) with rfl | hx
        · simp
        · exact Finset.mem_union_left _ hx
      · simp only [List.toFinset_cons, Finset.mem_union, Finset.mem_insert, List.mem_toFinset] at *
        tauto

/-- Seeding adds at most one id per processed transaction, and at most
the first 50 transactions are processed. -/
theorem seed_history_card_le (s : Finset String) (txs : List Transaction) :
    (seed_history s txs).card ≤ s.card + 50 := by
  unfold seed_history
  have hgen : ∀ (l : List Transaction) (s : Finset String),
      (l.foldl (fun s tx => if tx.transaction_id ≠ "" then insert tx.transaction_id s else s)
        s).card ≤ s.card + l.length := by
    intro l
    induction l with
    | nil => intro s; simp
    | cons a tl ih =>
        intro s
        rw [List.foldl_cons]
        refine le_trans (ih _) ?_
        by_cases h : a.transaction_id ≠ ""
        · rw [if_pos h]
          have := Finset.card_insert_le a.transaction_id s
          simp only [List.length_cons]
          omega
        · rw [if_neg h]
          simp only [List.length_cons]
          omega
  refine le_trans (hgen (txs.take 50) s) ?_
  have := List.length_take_le 50 txs
  omega

/-! ### Lemmas about the witness id family -/

theorem lex_replicate_lt : ∀ {a b : Nat}, a < b →
    List.Lex (· < ·) (List.replicate (a + 1) 'a') (List.replicate (b + 1) 'a') := by
  intro a
  induction a with
  | zero =>
      intro b hb
      match b, hb with
      | b + 1, _ =>
          rw [List.replicate_succ, List.replicate_succ 'a' (b + 1)]
          exact List.Lex.cons (by rw [List.replicate_succ]; exact List.Lex.nil)
  | succ a ih =>
      intro b hb
      match b, hb with
      | b + 1, hb =>
          rw [List.replicate_succ, List.replicate_succ 'a' (b + 1)]
          exact List.Lex.cons (ih (by omega))

theorem repId_lt {a b : Nat} (h : a < b) : repId a < repId b :=
  String.lt_iff_toList_lt.mpr (lex_replicate_lt h)

theorem repId_le {a b : Nat} (h : a ≤ b) : repId a ≤ repId b := by
  rcases Nat.lt_or_ge a b with h' | h'
  · exact le_of_lt (repId_lt h')
  · have : a = b := le_antisymm h h'
    exact this ▸ le_refl _

theorem repId_injective : Function.Injective repId := by
  intro a b hab
  rcases lt_trichotomy a b with h | h | h
  · exact absurd hab (ne_of_lt (repId_lt h))
  · exact h
  · exact absurd hab.symm (ne_of_lt (repId_lt h))

theorem idList_length (n : Nat) : (idList n).length = n := by
  simp [idList]

theorem idList_nodup (n : Nat) : (idList n).Nodup :=
  (List.nodup_range n).map repId_injective

theorem idList_card (n : Nat) : (idList n).toFinset.card = n := by
  rw [List.toFinset_card_of_nodup (idList_nodup n), idList_length]

theorem mem_idList {k n : Nat} : repId k ∈ idList n ↔ k < n := by
  simp only [idList, List.mem_map]
  constructor
  · rintro ⟨m, hm, hmk⟩
    rw [← repId_injective hmk]
    exact List.mem_range.1 hm
  · intro h
    exact ⟨k, List.mem_range.2 h, rfl⟩

theorem idList_succ (n : Nat) : idList (n + 1) = idList n ++ [repId n] := by
  simp [idList, List.range_succ]

/-- Every member of `idList n` is at least `repId 0`. -/
theorem repId_zero_le {x : String} {n : Nat} (hx : x ∈ idList n) : repId 0 ≤ x := by
  rcases List.mem_map.1 hx with ⟨k, _, rfl⟩
  exact repId_le (Nat.zero_le k)

attribute [irreducible] repId idList

theorem bigSet_card : bigSet.card = 1000 := idList_card 1000

theorem repId_1000_not_mem_bigSet : repId 1000 ∉ bigSet := by
  intro h
  exact absurd (mem_idList.1 (List.mem_toFinset.1 h)) (by omega)

theorem insert_bigSet : insert (repId 1000) bigSet = (idList 1001).toFinset := by
  rw [show (1001 : Nat) = 1000 + 1 from rfl, idList_succ, List.toFinset_append]
  have h2 : (idList 1000).toFinset = bigSet := rfl
  rw [h2, show ([repId 1000] : List String).toFinset = {repId 1000} from rfl,
    Finset.union_comm, ← Finset.insert_eq]

theorem insert_bigSet_card : (insert (repId 1000) bigSet).card = 1001 := by
  rw [Finset.card_insert_of_not_mem repId_1000_not_mem_bigSet, bigSet_card]

/-- Marking the 1001st (largest) id into the full 1000-element witness
set evicts the smallest id, `repId 0`, even though it was marked
earlier. -/
theorem repId_zero_not_mem_mark_bigSet : repId 0 ∉ mark_set bigSet (repId 1000) := by
  intro hmem
  have hbig : (insert (repId 1000) bigSet).card > 1000 := by
    rw [insert_bigSet_card]; omega
  obtain ⟨hcard, hsub, hsep⟩ := mark_set_evict bigSet (repId 1000) hbig
  have hss : mark_set bigSet (repId 1000) ⊂ insert (repId 1000) bigSet := by
    refine Finset.ssubset_iff_subset_ne.mpr ⟨hsub, ?_⟩
    intro he
    rw [he, insert_bigSet_card] at hcard
    omega
  obtain ⟨x, hxS, hxnot⟩ := Finset.exists_of_ssubset hss
  have hx0 : repId 0 ≤ x := by
    have hx : x ∈ (idList 1001).toFinset := by rw [← insert_bigSet]; exact hxS
    exact repId_zero_le (List.mem_toFinset.1 hx)
  have hlt : x < repId 0 := hsep x hxS hxnot (repId 0) hmem
  exact absurd hx0 (not_le_of_lt hlt)

/-- Folding state-level marking over a list of ids acts on the marked
address exactly as the set-level fold. -/
theorem foldl_mark_state (w : String) : ∀ (l : List String) (st : BotState),
    ((l.foldl (fun st t => mark_transaction_notified st w t) st).notified_transactions w)
      = l.foldl mark_set (st.notified_transactions w) := by
  intro l
  induction l with
  | nil => intro st; rfl
  | cons a tl ih =>
      intro st
      rw [List.foldl_cons, List.foldl_cons, ih]
      congr 1
      simp [mark_transaction_notified]

/-- Marking the first 1001 witness ids in order, starting from the
empty set, ends in the trimmed post-eviction set. -/
theorem foldl_idList_1001 :
    (idList 1001).foldl mark_set ∅ = mark_set bigSet (repId 1000) := by
  rw [show (1001 : Nat) = 1000 + 1 from rfl, idList_succ, List.foldl_append]
  have h1 : (idList 1000).foldl mark_set ∅ = ∅ ∪ (idList 1000).toFinset :=
    foldl_mark_set_eq_union _ _ (by rw [Finset.empty_union, idList_card])
  have h2 : (idList 1000).toFinset = bigSet := rfl
  rw [h1, Finset.empty_union, h2, List.foldl_cons, List.foldl_nil]

attribute [irreducible] bigSet

/-- Marking rewrites exactly the marked address's set. -/
theorem mark_state_at (st : BotState) (w t : String) :
    (mark_transaction_notified st w t).notified_transactions w
      = mark_set (st.notified_transactions w) t := by
  simp [mark_transaction_notified]

/-- Marking leaves every other address's set untouched. -/
theorem mark_state_ne (st : BotState) (w t a : String) (h : a ≠ w) :
    (mark_transaction_notified st w t).notified_transactions a
      = st.notified_transactions a := by
  simp [mark_transaction_notified, Function.update_noteq h]

/-! ### Helper lemmas about the decimal snapshot encoding -/

theorem digitVal_digitChar (d : Nat) (h : d < 10) : digitVal (digitChar d) = some d := by
  interval_cases d <;> rfl

theorem digitChar_ne_dash (d : Nat) (h : d < 10) : digitChar d ≠ '-' := by
  interval_cases d <;> decide

theorem natRepr_ne_nil (n : Nat) : natRepr n ≠ [] := by
  rw [natRepr]
  by_cases h : n < 10
  · rw [dif_pos h]
    simp
  · rw [dif_neg h]
    simp

theorem natRepr_all_digits (n : Nat) : ∀ c ∈ natRepr n, ∃ d, d < 10 ∧ c = digitChar d := by
  induction n using Nat.strong_induction_on with
  | _ n ih =>
      rw [natRepr]
      by_cases h : n < 10
      · rw [dif_pos h]
        intro c hc
        rw [List.mem_singleton] at hc
        exact ⟨n, h, hc⟩
      · rw [dif_neg h]
        intro c hc
        rcases List.mem_append.1 hc with hc | hc
        · exact ih (n / 10) (Nat.div_lt_self (by omega) (by omega)) c hc
        · rw [List.mem_singleton] at hc
          exact ⟨n % 10, Nat.mod_lt _ (by omega), hc⟩

theorem parseDigits_append (l₁ l₂ : List Char) : ∀ acc,
    parseDigits acc (l₁ ++ l₂) = parseDigits (parseDigits acc l₁) l₂ := by
  induction l₁ with
  | nil => intro acc; rfl
  | cons c cs ih =>
      intro acc
      rw [List.cons_append]
      simp only [parseDigits]
      exact ih _

theorem parseDigits_natRepr (n : Nat) : ∀ a : Nat,
    parseDigits (some a) (natRepr n) = some (a * 10 ^ (natRepr n).length + n) := by
  induction n using Nat.strong_induction_on with
  | _ n ih =>
      intro a
      by_cases h : n < 10
      · rw [natRepr, dif_pos h]
        simp only [parseDigits, digitVal_digitChar n h, Option.some_bind, Option.map_some',
          List.length_singleton]
        congr 1
        rw [pow_one]
        omega
      · rw [natRepr, dif_neg h]
        rw [parseDigits_append, ih (n / 10) (Nat.div_lt_self (by omega) (by omega)) a]
        simp only [parseDigits, digitVal_digitChar (n % 10) (Nat.mod_lt _ (by omega)),
          Option.some_bind, Option.map_some', List.length_append, List.length_singleton]
        congr 1
        have hdm := Nat.div_add_mod n 10
        have hexp : a * 10 ^ ((natRepr (n / 10)).length + 1) =
            a * 10 ^ (natRepr (n / 10)).length * 10 := by
          rw [pow_succ]
          ring
        rw [hexp]
        set K := a * 10 ^ (natRepr (n / 10)).length
        omega

theorem natParse_natRepr (n : Nat) : natParse (natRepr n) = some n := by
  unfold natParse
  rw [if_neg (natRepr_ne_nil n), parseDigits_natRepr n 0]
  simp

theorem intParse_intRepr (i : Int) : intParse (intRepr i) = some i := by
  unfold intRepr
  by_cases h : i < 0
  · rw [if_pos h]
    show (natParse (natRepr (-i).toNat)).map (fun n => -(Int.ofNat n)) = some i
    rw [natParse_natRepr, Option.map_some']
    congr 1
    simp only [Int.ofNat_eq_natCast]
    omega
  · rw [if_neg h]
    obtain ⟨c, t, hct⟩ := List.exists_cons_of_ne_nil (natRepr_ne_nil i.toNat)
    have hcd : c ≠ '-' := by
      obtain ⟨d, hd, hcd⟩ := natRepr_all_digits i.toNat c (hct ▸ List.mem_cons_self c t)
      rw [hcd]
      exact digitChar_ne_dash d hd
    rw [hct]
    show (if c = '-' then (natParse t).map (fun n => -(Int.ofNat n))
        else (natParse (c :: t)).map (fun n => Int.ofNat n)) = some i
    rw [if_neg hcd, ← hct, natParse_natRepr, Option.map_some']
    congr 1
    simp only [Int.ofNat_eq_natCast]
    omega

theorem parseWallets_save (l : List (Int × List String)) :
    parseWallets (l.map (fun p => (intRepr p.1, p.2))) = some l := by
  induction l with
  | nil => rfl
  | cons a tl ih =>
      rw [List.map_cons]
      simp only [parseWallets, intParse_intRepr, ih]

/-- Serializing a set in sorted order and rebuilding it with
`set(...)` gives back the same set. -/
theorem sort_toFinset (s : Finset String) : (s.sort (· ≤ ·)).toFinset = s := by
  rw [List.toFinset_eq_of_perm _ _ (Finset.sort_perm_toList (· ≤ ·) s),
    Finset.toList_toFinset]

theorem notified_roundtrip (l : List (String × Finset String)) :
    (l.map (fun p => (p.1, p.2.sort (· ≤ ·)))).map (fun p => (p.1, p.2.toFinset)) = l := by
  induction l with
  | nil => rfl
  | cons a tl ih =>
      simp only [List.map_cons, sort_toFinset, ih]

/-! ### Helper lemmas about the processing loop -/

/-- A transaction with a fresh non-empty id is dispatched and then
marked. -/
theorem process_one_dispatch (sink : Int → Transaction → Bool) (chat : Int)
    (w : String) (st : BotState) (tx : Transaction)
    (hne : tx.transaction_id ≠ "")
    (hnew : is_transaction_notified st w tx.transaction_id = false) :
    process_one sink chat w st tx =
      mark_transaction_notified (send_transaction_notification sink st chat w tx) w
        tx.transaction_id := by
  unfold process_one
  rw [if_pos ⟨hne, hnew⟩]

/-- A transaction with an empty id, or one already notified, is
skipped. -/
theorem process_one_skip (sink : Int → Transaction → Bool) (chat : Int)
    (w : String) (st : BotState) (tx : Transaction)
    (h : tx.transaction_id = "" ∨ is_transaction_notified st w tx.transaction_id = true) :
    process_one sink chat w st tx = st := by
  unfold process_one
  rw [if_neg]
  rintro ⟨h1, h2⟩
  rcases h with h | h
  · exact h1 h
  · rw [h] at h2
    cases h2

/-- A batch in which every transaction is skippable leaves the state
untouched. -/
theorem foldl_process_skip (sink : Int → Transaction → Bool) (chat : Int) (w : String) :
    ∀ (l : List Transaction) (st : BotState),
      (∀ tx ∈ l, tx.transaction_id = "" ∨
        is_transaction_notified st w tx.transaction_id = true) →
      l.foldl (process_one sink chat w) st = st := by
  intro l
  induction l with
  | nil => intro st _; rfl
  | cons a tl ih =>
      intro st h
      rw [List.foldl_cons, process_one_skip sink chat w st a (h a (List.mem_cons_self a tl))]
      exact ih st (fun tx htx => h tx (List.mem_cons_of_mem a htx))

/-- Dispatch attempts do not change any notified set. -/
theorem send_state_notified (sink : Int → Transaction → Bool) (st : BotState)
    (chat : Int) (w : String) (tx : Transaction) :
    (send_transaction_notification sink st chat w tx).notified_transactions
      = st.notified_transactions := rfl

/-- One processing step never puts the empty id into any notified
set. -/
theorem process_one_no_empty_id (sink : Int → Transaction → Bool) (chat : Int)
    (w : String) (st : BotState) (tx : Transaction) (a : String)
    (h : "" ∉ st.notified_transactions a) :
    "" ∉ (process_one sink chat w st tx).notified_transactions a := by
  by_cases hc : tx.transaction_id ≠ "" ∧
      is_transaction_notified st w tx.transaction_id = false
  · unfold process_one
    rw [if_pos hc]
    by_cases haw : a = w
    · subst haw
      rw [mark_state_at, send_state_notified]
      intro hmem
      rcases Finset.mem_insert.1 (mark_set_subset _ _ hmem) with heq | hmem'
      · exact hc.1 heq.symm
      · exact h hmem'
    · rw [mark_state_ne _ _ _ _ haw, send_state_notified]
      exact h
  · unfold process_one
    rw [if_neg hc]
    exact h

/-- One processing step only appends dispatch records with a non-empty
transaction id. -/
theorem process_one_sent_records (sink : Int → Transaction → Bool) (chat : Int)
    (w : String) (st : BotState) (tx : Transaction) (r : SentRecord)
    (h : r ∈ (process_one sink chat w st tx).sent_messages) :
    r ∈ st.sent_messages ∨ r.tx_hash ≠ "" := by
  by_cases hc : tx.transaction_id ≠ "" ∧
      is_transaction_notified st w tx.transaction_id = false
  · unfold process_one at h
    rw [if_pos hc] at h
    rcases List.mem_append.1 h with h' | h'
    · exact Or.inl h'
    · right
      rw [List.mem_singleton] at h'
      rw [h']
      exact hc.1
  · unfold process_one at h
    rw [if_neg hc] at h
    exact Or.inl h

/-! ### Claim theorems -/

/-- **C1, counterexample.**  The claim "if the notification dispatch
fails, the transaction id is NOT added to the NotifiedSet, so the
transaction is retried next cycle" is false: the Python code swallows
the sink failure inside `send_transaction_notification` and
`process_transactions` then marks unconditionally.  With a sink that
always fails, processing one fresh transaction records a failed
dispatch attempt and still marks the id notified. -/
theorem c1_counterexample :
    ((process_transactions failSink 7 "kaspa:w" [txIncoming] initState).sent_messages.map
        SentRecord.delivered) = [false] ∧
      is_transaction_notified (process_transactions failSink 7 "kaspa:w" [txIncoming] initState)
        "kaspa:w" "deadbeef" = true := by
  decide

/-- **C1, amended.**  Dedup marking is not gated on dispatch success:
for every sink outcome, processing a fresh transaction with a
non-empty id appends exactly one dispatch-attempt record carrying the
sink's verdict and marks the id notified regardless (the membership
conclusion uses the room hypothesis ≤ 999 only to rule out the
eviction trim).  In particular a failed dispatch is marked and never
retried. -/
theorem c1_amended (sink : Int → Transaction → Bool) (chat : Int) (w : String)
    (tx : Transaction) (st : BotState)
    (hne : tx.transaction_id ≠ "")
    (hnew : is_transaction_notified st w tx.transaction_id = false)
    (hroom : (st.notified_transactions w).card ≤ 999) :
    is_transaction_notified (process_transactions sink chat w [tx] st) w
        tx.transaction_id = true ∧
      (process_transactions sink chat w [tx] st).sent_messages =
        st.sent_messages ++
          [{ chat_id := chat, wallet_address := w, tx_hash := tx.transaction_id
             classification := classify_transaction w tx
             delivered := sink chat tx }] := by
  have htake : ([tx] : List Transaction).take 10 = [tx] := rfl
  have hp : process_transactions sink chat w [tx] st =
      mark_transaction_notified (send_transaction_notification sink st chat w tx) w
        tx.transaction_id := by
    unfold process_transactions
    rw [htake, List.foldl_cons, List.foldl_nil]
    exact process_one_dispatch sink chat w st tx hne hnew
  constructor
  · rw [hp, is_transaction_notified]
    apply decide_eq_true
    rw [mark_state_at, send_state_notified, mark_set_of_card_le]
    · exact Finset.mem_insert_self _ _
    · have := Finset.card_insert_le tx.transaction_id (st.notified_transactions w)
      omega
  · rw [hp]
    rfl

/-- **C1, witness** for the amended theorem: the always-failing sink
on the concrete fresh transaction `txIncoming`. -/
theorem c1_amended_witness :
    (txIncoming.transaction_id ≠ "" ∧
      is_transaction_notified initState "kaspa:w" txIncoming.transaction_id = false ∧
      (initState.notified_transactions "kaspa:w").card ≤ 999) ∧
    (is_transaction_notified (process_transactions failSink 7 "kaspa:w" [txIncoming] initState)
        "kaspa:w" txIncoming.transaction_id = true ∧
      (process_transactions failSink 7 "kaspa:w" [txIncoming] initState).sent_messages =
        initState.sent_messages ++
          [{ chat_id := 7, wallet_address := "kaspa:w", tx_hash := txIncoming.transaction_id
             classification := classify_transaction "kaspa:w" txIncoming
             delivered := failSink 7 txIncoming }]) :=
  ⟨⟨by decide, by decide, by decide⟩,
    c1_amended failSink 7 "kaspa:w" txIncoming initState (by decide) (by decide) (by decide)⟩

/-- **C4, counterexample.**  The claim "a transaction whose outputs
list is empty is rejected by the classifier and produces no
notification" is false: the code classifies it Outgoing (the `any`
scan over no outputs is false), with counterparty `"Unknown"` and
amount 0, and dispatches a notification for it. -/
theorem c4_counterexample :
    classify_transaction "kaspa:w" txNoOutputs =
      { direction := .outgoing, from_address := "kaspa:w"
        to_address := "Unknown", amount_sompi := 0 } ∧
      (process_transactions okSink 7 "kaspa:w" [txNoOutputs] initState).sent_messages.length
        = 1 := by
  decide

/-- **C4, amended.**  A transaction with an empty outputs list is not
rejected: it is always classified Outgoing with counterparty
`"Unknown"` and amount 0, regardless of its inputs, and a dispatch
attempt is still made for it (one record appended). -/
theorem c4_amended (w : String) (tx : Transaction) (h : tx.outputs = []) :
    classify_transaction w tx =
      { direction := .outgoing, from_address := w
        to_address := "Unknown", amount_sompi := 0 } ∧
    ∀ (sink : Int → Transaction → Bool) (st : BotState) (chat : Int),
      (send_transaction_notification sink st chat w tx).sent_messages =
        st.sent_messages ++
          [{ chat_id := chat, wallet_address := w, tx_hash := tx.transaction_id
             classification := { direction := .outgoing, from_address := w
                                 to_address := "Unknown", amount_sompi := 0 }
             delivered := sink chat tx }] := by
  have hc : classify_transaction w tx =
      { direction := .outgoing, from_address := w
        to_address := "Unknown", amount_sompi := 0 } := by
    simp only [classify_transaction, h]
    simp
  refine ⟨hc, fun sink st chat => ?_⟩
  unfold send_transaction_notification
  rw [hc]

/-- **C4, witness** for the amended theorem at the concrete
empty-outputs transaction. -/
theorem c4_amended_witness :
    txNoOutputs.outputs = [] ∧
    classify_transaction "kaspa:w" txNoOutputs =
      { direction := .outgoing, from_address := "kaspa:w"
        to_address := "Unknown", amount_sompi := 0 } ∧
    (send_transaction_notification okSink initState 7 "kaspa:w" txNoOutputs).sent_messages =
      initState.sent_messages ++
        [{ chat_id := 7, wallet_address := "kaspa:w", tx_hash := txNoOutputs.transaction_id
           classification := { direction := .outgoing, from_address := "kaspa:w"
                               to_address := "Unknown", amount_sompi := 0 }
           delivered := okSink 7 txNoOutputs }] :=
  ⟨rfl, (c4_amended "kaspa:w" txNoOutputs rfl).1,
    (c4_amended "kaspa:w" txNoOutputs rfl).2 okSink initState 7⟩

/-- **C5, counterexample.**  The claim "if neither any output
destination nor any input previous-output address equals the watched
address, the classifier rejects the transaction" is false: the code
never scans inputs at all — `txUnrelated` touches `"kaspa:w"` on
neither side, yet it is classified Outgoing and a notification is
dispatched. -/
theorem c5_counterexample :
    txUnrelated.outputs.all
        (fun o => !(o.script_public_key_address == some "kaspa:w")) = true ∧
    txUnrelated.inputs.all
        (fun i => !(i.previous_outpoint_address == some "kaspa:w")) = true ∧
    classify_transaction "kaspa:w" txUnrelated =
      { direction := .outgoing, from_address := "kaspa:w"
        to_address := "kaspa:other", amount_sompi := 100 } ∧
    (process_transactions okSink 7 "kaspa:w" [txUnrelated] initState).sent_messages.length
      = 1 := by
  decide

/-- **C5, amended.**  When no output's destination equals the watched
address, the transaction is always classified Outgoing — the inputs
are never consulted for the direction, the sender is reported as the
watched address itself, and the amount sums all outputs; there is no
rejection path. -/
theorem c5_amended (w : String) (tx : Transaction)
    (h : ∀ o ∈ tx.outputs, o.script_public_key_address ≠ some w) :
    (classify_transaction w tx).direction = .outgoing ∧
    (classify_transaction w tx).from_address = w ∧
    (classify_transaction w tx).amount_sompi = (tx.outputs.map TxOutput.amount).sum := by
  have hinc : tx.outputs.any (fun o => o.script_public_key_address == some w) = false := by
    rw [List.any_eq_false]
    intro o ho
    simp only [beq_iff_eq]
    exact h o ho
  simp only [classify_transaction, hinc]
  simp

/-- **C5, witness** for the amended theorem at the concrete
transaction touching the watched address on neither side. -/
theorem c5_amended_witness :
    txUnrelated.outputs.all
        (fun o => !(o.script_public_key_address == some "kaspa:w")) = true ∧
    ((classify_transaction "kaspa:w" txUnrelated).direction = .outgoing ∧
      (classify_transaction "kaspa:w" txUnrelated).from_address = "kaspa:w" ∧
      (classify_transaction "kaspa:w" txUnrelated).amount_sompi =
        (txUnrelated.outputs.map TxOutput.amount).sum) :=
  ⟨by decide, c5_amended "kaspa:w" txUnrelated (by decide)⟩

/-- **C2, counterexample.**  The claim "for every sequence of
`markNotified` calls on a single address, `isNotified` afterwards
returns true for every id that was marked at some point" is false:
marking the 1001 distinct ids of `idList 1001` in increasing order on
one address, starting from the empty state, triggers the 1000→800
eviction, which discards the lexicographically smallest id
`repId 0` although it was marked first. -/
theorem c2_counterexample :
    repId 0 ∈ idList 1001 ∧
      is_transaction_notified
        ((idList 1001).foldl (fun st t => mark_transaction_notified st "kaspa:w" t) initState)
        "kaspa:w" (repId 0) = false := by
  refine ⟨mem_idList.2 (by omega), ?_⟩
  apply decide_eq_false
  rw [foldl_mark_state]
  show repId 0 ∉ (idList 1001).foldl mark_set ∅
  rw [foldl_idList_1001]
  exact repId_zero_not_mem_mark_bigSet

/-- **C2, amended.**  For every sequence of `markNotified` calls on a
single address that involves at most 1000 distinct ids, `isNotified`
afterwards returns true exactly for the marked ids; and for an
arbitrary sequence (of any length), an id that was never marked is
never reported as notified.  The unrestricted "true for every marked
id" direction fails because of the 1000→800 eviction
(see the counterexample). -/
theorem c2_amended (l : List String) (a : String) :
    (l.toFinset.card ≤ 1000 →
      (is_transaction_notified
          (l.foldl (fun st t => mark_transaction_notified st "kaspa:w" t) initState)
          "kaspa:w" a = true ↔ a ∈ l)) ∧
    (a ∉ l →
      is_transaction_notified
          (l.foldl (fun st t => mark_transaction_notified st "kaspa:w" t) initState)
          "kaspa:w" a = false) := by
  constructor
  · intro hcard
    rw [is_transaction_notified, foldl_mark_state]
    show decide (a ∈ l.foldl mark_set ∅) = true ↔ a ∈ l
    rw [foldl_mark_set_eq_union l ∅ (by rwa [Finset.empty_union]), Finset.empty_union]
    simp
  · intro hnot
    rw [is_transaction_notified, foldl_mark_state]
    apply decide_eq_false
    show a ∉ l.foldl mark_set ∅
    intro hmem
    have := foldl_mark_set_subset l ∅ hmem
    rw [Finset.empty_union, List.mem_toFinset] at this
    exact hnot this

/-- **C2, witness** for the amended theorem at the concrete sequence
`["b", "c"]`: the marked id `"b"` is reported notified, the never
marked id `"z"` is not. -/
theorem c2_amended_witness :
    ((["b", "c"] : List String).toFinset.card ≤ 1000 ∧
      (is_transaction_notified
          ((["b", "c"] : List String).foldl
            (fun st t => mark_transaction_notified st "kaspa:w" t) initState)
          "kaspa:w" "b" = true ↔ "b" ∈ (["b", "c"] : List String))) ∧
    ("z" ∉ (["b", "c"] : List String) ∧
      is_transaction_notified
          ((["b", "c"] : List String).foldl
            (fun st t => mark_transaction_notified st "kaspa:w" t) initState)
          "kaspa:w" "z" = false) :=
  ⟨⟨by decide, (c2_amended ["b", "c"] "b").1 (by decide)⟩,
   ⟨by decide, (c2_amended ["b", "c"] "z").2 (by decide)⟩⟩

/-- **C3, confirmed.**  (1) When marking a fresh id pushes an
address's set past 1000 members, the surviving set has exactly 800
members, all drawn from the inserted set, and every evicted member is
strictly below every retained member in the lexicographic identifier
order.  (2) Marking an id already present in a set that satisfies the
size invariant (≤ 1000, which holds in every state the bot's own
operations can reach) changes nothing at all. -/
theorem c3_trim_and_idempotent :
    (∀ (st : BotState) (w t : String),
        t ∉ st.notified_transactions w →
        (insert t (st.notified_transactions w)).card > 1000 →
        (((mark_transaction_notified st w t).notified_transactions w).card = 800 ∧
          (mark_transaction_notified st w t).notified_transactions w
            ⊆ insert t (st.notified_transactions w) ∧
          ∀ x ∈ insert t (st.notified_transactions w),
            x ∉ (mark_transaction_notified st w t).notified_transactions w →
            ∀ y ∈ (mark_transaction_notified st w t).notified_transactions w, x < y)) ∧
    (∀ (st : BotState) (w t : String),
        t ∈ st.notified_transactions w →
        (st.notified_transactions w).card ≤ 1000 →
        mark_transaction_notified st w t = st) := by
  constructor
  · intro st w t _hfresh hcard
    rw [mark_state_at]
    exact mark_set_evict (st.notified_transactions w) t hcard
  · intro st w t hmem hcard
    have hins : insert t (st.notified_transactions w) = st.notified_transactions w :=
      Finset.insert_eq_self.2 hmem
    have hset : mark_set (st.notified_transactions w) t = st.notified_transactions w := by
      rw [mark_set_of_card_le _ _ (by rw [hins]; exact hcard), hins]
    cases st with
    | mk m msgs =>
        simp only [mark_transaction_notified] at *
        rw [hset]
        simp

/-- **C3, witness**: the trim branch at the explicit 1000-member set
`bigSet` receiving the fresh id `repId 1000`, and the idempotence
branch at a one-member set receiving its own member again. -/
theorem c3_witness :
    (repId 1000 ∉ bigState.notified_transactions "kaspa:w" ∧
      (insert (repId 1000) (bigState.notified_transactions "kaspa:w")).card > 1000 ∧
      ((mark_transaction_notified bigState "kaspa:w" (repId 1000)).notified_transactions
          "kaspa:w").card = 800) ∧
    (("b" : String) ∈ oneState.notified_transactions "kaspa:w" ∧
      mark_transaction_notified oneState "kaspa:w" "b" = oneState) := by
  have hfresh : repId 1000 ∉ bigState.notified_transactions "kaspa:w" :=
    repId_1000_not_mem_bigSet
  have hcard : (insert (repId 1000) (bigState.notified_transactions "kaspa:w")).card > 1000 := by
    show (insert (repId 1000) bigSet).card > 1000
    rw [insert_bigSet_card]; omega
  have hmem : ("b" : String) ∈ oneState.notified_transactions "kaspa:w" := by decide
  have hone : (oneState.notified_transactions "kaspa:w").card ≤ 1000 := by decide
  exact ⟨⟨hfresh, hcard,
      (c3_trim_and_idempotent.1 bigState "kaspa:w" (repId 1000) hfresh hcard).1⟩,
    ⟨hmem, c3_trim_and_idempotent.2 oneState "kaspa:w" "b" hmem hone⟩⟩

/-- **C8, confirmed.**  Saving a snapshot and loading it back
reproduces exactly the same state: the integer chat-id keys of the
watch list survive the string round trip (`str` on save, `int()` on
load, including negative group-chat ids), and every per-address
notified set survives the set→list→set round trip. -/
theorem c8_save_load_roundtrip (d : BotData) : load_wallets (save_wallets d) = some d := by
  unfold load_wallets save_wallets
  rw [parseWallets_save]
  show some ({ wallets := d.wallets, notified_transactions := (d.notified_transactions.map (fun p => (p.1, p.2.sort (· ≤ ·)))).map (fun p => (p.1, p.2.toFinset)) } : BotData) = some d
  rw [notified_roundtrip]

/-- **C6, counterexample.**  The claim "the scheduler considers at
most the first 20 returned transactions" is false: the code slices
`transactions[:10]`.  Eleven fresh dispatchable transactions yield
exactly 10 dispatches, and the eleventh (id `'b' * 11`) is neither
dispatched nor marked although it sits within the first 20. -/
theorem c6_counterexample :
    txBatch11.length = 11 ∧
    (process_transactions okSink 7 "kaspa:w" txBatch11 initState).sent_messages.length = 10 ∧
    is_transaction_notified (process_transactions okSink 7 "kaspa:w" txBatch11 initState)
      "kaspa:w" (String.mk (List.replicate 11 'b')) = false := by
  decide

/-- **C6, amended.**  During a cycle, for every address whose fetch
succeeds the scheduler considers at most the first **10** returned
transactions, in the order returned; a transaction is skipped iff its
id is missing/empty or already notified (the classifier never
rejects), otherwise it is dispatched (attempted) and then marked. -/
theorem c6_amended :
    (∀ (sink : Int → Transaction → Bool) (chat : Int) (w : String)
        (txs : List Transaction) (st : BotState),
        process_transactions sink chat w txs st =
          process_transactions sink chat w (txs.take 10) st) ∧
    (∀ (sink : Int → Transaction → Bool) (chat : Int) (w : String)
        (txs : List Transaction) (st : BotState),
        (∀ tx ∈ txs, tx.transaction_id = "" ∨
          is_transaction_notified st w tx.transaction_id = true) →
        process_transactions sink chat w txs st = st) ∧
    (∀ (sink : Int → Transaction → Bool) (chat : Int) (w : String)
        (tx : Transaction) (st : BotState),
        tx.transaction_id ≠ "" →
        is_transaction_notified st w tx.transaction_id = false →
        process_transactions sink chat w [tx] st =
          mark_transaction_notified (send_transaction_notification sink st chat w tx) w
            tx.transaction_id) := by
  refine ⟨?_, ?_, ?_⟩
  · intro sink chat w txs st
    unfold process_transactions
    rw [List.take_take]
    norm_num
  · intro sink chat w txs st h
    unfold process_transactions
    exact foldl_process_skip sink chat w (txs.take 10) st
      (fun tx htx => h tx (List.take_subset 10 txs htx))
  · intro sink chat w tx st hne hnew
    unfold process_transactions
    rw [show ([tx] : List Transaction).take 10 = [tx] from rfl,
      List.foldl_cons, List.foldl_nil]
    exact process_one_dispatch sink chat w st tx hne hnew

/-- **C6, witness** for the amended theorem: the 10-cap on the
11-transaction batch, the all-skip case on a state that has seen the
whole batch, and the dispatch-then-mark case on one fresh
transaction. -/
theorem c6_amended_witness :
    (process_transactions okSink 7 "kaspa:w" txBatch11 initState =
        process_transactions okSink 7 "kaspa:w" (txBatch11.take 10) initState) ∧
    (process_transactions okSink 7 "kaspa:w" txBatch11 batchState = batchState) ∧
    (process_transactions okSink 7 "kaspa:w" [txIncoming] initState =
        mark_transaction_notified
          (send_transaction_notification okSink initState 7 "kaspa:w" txIncoming)
          "kaspa:w" txIncoming.transaction_id) :=
  ⟨c6_amended.1 okSink 7 "kaspa:w" txBatch11 initState,
    c6_amended.2.1 okSink 7 "kaspa:w" txBatch11 batchState (by decide),
    c6_amended.2.2 okSink 7 "kaspa:w" txIncoming initState (by decide) (by decide)⟩

/-- **C10, confirmed.**  A fetched transaction whose id is missing or
empty is neither dispatched nor marked: (1) the empty id never enters
any notified set through the processing path, (2) every dispatch
record appended during processing carries a non-empty id, and (3) a
single processing step on an empty-id transaction is a no-op. -/
theorem c10_empty_id_skipped :
    (∀ (sink : Int → Transaction → Bool) (chat : Int) (w : String)
        (txs : List Transaction) (st : BotState) (a : String),
        "" ∉ st.notified_transactions a →
        "" ∉ (process_transactions sink chat w txs st).notified_transactions a) ∧
    (∀ (sink : Int → Transaction → Bool) (chat : Int) (w : String)
        (txs : List Transaction) (st : BotState) (r : SentRecord),
        r ∈ (process_transactions sink chat w txs st).sent_messages →
        r ∈ st.sent_messages ∨ r.tx_hash ≠ "") ∧
    (∀ (sink : Int → Transaction → Bool) (chat : Int) (w : String)
        (tx : Transaction) (st : BotState),
        tx.transaction_id = "" →
        process_one sink chat w st tx = st) := by
  refine ⟨?_, ?_, ?_⟩
  · intro sink chat w txs st a h
    unfold process_transactions
    generalize txs.take 10 = l
    induction l generalizing st with
    | nil => exact h
    | cons b tl ih =>
        rw [List.foldl_cons]
        exact ih _ (process_one_no_empty_id sink chat w st b a h)
  · intro sink chat w txs st r h
    unfold process_transactions at h
    revert h
    generalize txs.take 10 = l
    induction l generalizing st with
    | nil => intro h; exact Or.inl h
    | cons b tl ih =>
        intro h
        rw [List.foldl_cons] at h
        rcases ih _ h with h' | h'
        · exact process_one_sent_records sink chat w st b r h'
        · exact Or.inr h'
  · intro sink chat w tx st h
    exact process_one_skip sink chat w st tx (Or.inl h)

/-- **C10, witness**: the empty id stays out of the notified set when
processing the batch, a record actually produced by processing has a
non-empty id, and the concrete empty-id transaction is skipped. -/
theorem c10_witness :
    ("" ∉ (process_transactions okSink 7 "kaspa:w" txBatch11 initState).notified_transactions
        "kaspa:w") ∧
    ({ chat_id := 7, wallet_address := "kaspa:w", tx_hash := "b"
       classification := { direction := .incoming, from_address := "Unknown"
                           to_address := "kaspa:w", amount_sompi := 1 }
       delivered := true } ∈ initState.sent_messages ∨
      ({ chat_id := 7, wallet_address := "kaspa:w", tx_hash := "b"
         classification := { direction := .incoming, from_address := "Unknown"
                             to_address := "kaspa:w", amount_sompi := 1 }
         delivered := true } : SentRecord).tx_hash ≠ "") ∧
    process_one okSink 7 "kaspa:w" initState txNoId = initState :=
  ⟨c10_empty_id_skipped.1 okSink 7 "kaspa:w" txBatch11 initState "kaspa:w" (by decide),
    c10_empty_id_skipped.2.1 okSink 7 "kaspa:w" txBatch11 initState _ (by decide),
    c10_empty_id_skipped.2.2 okSink 7 "kaspa:w" txNoId initState rfl⟩

/-- **C9, confirmed.**  A fetch failure for one address — an exception
(timeout / connection error) or a non-200 response — yields "no data"
for that address only: the failing address leaves the state untouched
and the cycle continues with every remaining wallet of that chat and
with every remaining `(chat, wallets)` pair. -/
theorem c9_fetch_failure_isolated :
    (∀ (fetch : String → FetchOutcome) (w : String),
        fetch w = .failure → check_transactions fetch w = none) ∧
    (∀ (fetch : String → FetchOutcome) (w : String) (s : Nat) (txs : List Transaction),
        fetch w = .success s txs → s ≠ 200 → check_transactions fetch w = none) ∧
    (∀ (fetch : String → FetchOutcome) (sink : Int → Transaction → Bool) (chat : Int)
        (ws₁ ws₂ : List String) (a : String) (st : BotState),
        check_transactions fetch a = none →
        monitor_wallet_list fetch sink chat st (ws₁ ++ a :: ws₂) =
          monitor_wallet_list fetch sink chat
            (monitor_wallet_list fetch sink chat st ws₁) ws₂) ∧
    (∀ (fetch : String → FetchOutcome) (sink : Int → Transaction → Bool)
        (watch₁ watch₂ : List (Int × List String)) (st : BotState),
        monitor_cycle fetch sink (watch₁ ++ watch₂) st =
          monitor_cycle fetch sink watch₂ (monitor_cycle fetch sink watch₁ st)) := by
  refine ⟨?_, ?_, ?_, ?_⟩
  · intro fetch w h
    unfold check_transactions
    rw [h]
  · intro fetch w s txs h hs
    unfold check_transactions
    rw [h]
    simp only [if_neg hs]
  · intro fetch sink chat ws₁ ws₂ a st h
    unfold monitor_wallet_list
    rw [List.foldl_append, List.foldl_cons]
    have ha : monitor_address fetch sink chat (ws₁.foldl (monitor_address fetch sink chat) st) a
        = ws₁.foldl (monitor_address fetch sink chat) st := by
      unfold monitor_address
      rw [h]
    rw [ha]
  · intro fetch sink watch₁ watch₂ st
    unfold monitor_cycle
    rw [List.foldl_append]

/-- **C9, witness**: the always-raising fetcher and the 503 fetcher
both yield `none`, and with the raising fetcher the middle address of
a three-address list contributes nothing while the others are still
visited. -/
theorem c9_witness :
    (failFetch "kaspa:x" = .failure ∧ check_transactions failFetch "kaspa:x" = none) ∧
    (errFetch "kaspa:x" = .success 503 [] ∧ check_transactions errFetch "kaspa:x" = none) ∧
    (check_transactions failFetch "kaspa:b" = none ∧
      monitor_wallet_list failFetch okSink 7 initState ["kaspa:a", "kaspa:b", "kaspa:c"] =
        monitor_wallet_list failFetch okSink 7
          (monitor_wallet_list failFetch okSink 7 initState ["kaspa:a"]) ["kaspa:c"]) ∧
    monitor_cycle failFetch okSink ([(7, ["kaspa:a"])] ++ [(8, ["kaspa:b"])]) initState =
      monitor_cycle failFetch okSink [(8, ["kaspa:b"])]
        (monitor_cycle failFetch okSink [(7, ["kaspa:a"])] initState) :=
  ⟨⟨rfl, c9_fetch_failure_isolated.1 failFetch "kaspa:x" rfl⟩,
    ⟨rfl, c9_fetch_failure_isolated.2.1 errFetch "kaspa:x" 503 [] rfl (by decide)⟩,
    ⟨rfl, c9_fetch_failure_isolated.2.2.1 failFetch okSink 7 ["kaspa:a"] ["kaspa:c"]
      "kaspa:b" initState rfl⟩,
    c9_fetch_failure_isolated.2.2.2 failFetch okSink [(7, ["kaspa:a"])] [(8, ["kaspa:b"])]
      initState⟩

/-- **C7, confirmed.**  Every dedup map reachable from the empty
initial state through the public operations — `is_transaction_notified`
(a pure query: its auto-initialization of a missing address to `set()`
adds no member), `mark_transaction_notified`, and the backlog seeding
of `initialize_wallet_history` (invoked by `add_wallet` only on an
address whose set was just created empty, and bounded to the first 50
fetched transactions) — holds at most 1000 transaction ids per
address.  Marking re-establishes the bound from any state, trimming to
800 whenever an insertion exceeds 1000. -/
theorem c7_size_invariant (m : String → Finset String) (h : DedupReachable m) :
    ∀ a, (m a).card ≤ 1000 := by
  induction h with
  | refl => intro a; simp
  | tail _hsteps hstep ih =>
      intro a
      cases hstep with
      | mark w t =>
          by_cases haw : a = w
          · subst haw
            rw [Function.update_same]
            exact mark_set_card_le _ _
          · rw [Function.update_noteq haw]
            exact ih a
      | seed w txs hempty =>
          by_cases haw : a = w
          · subst haw
            rw [Function.update_same, hempty]
            have hle := seed_history_card_le (∅ : Finset String) txs
            refine le_trans hle (by norm_num)
          · rw [Function.update_noteq haw]
            exact ih a
      | query a' t => exact ih a

/-- **C7, witness**: the state reached by a single mark of `"t1"` on
`"kaspa:w"` is reachable and satisfies the bound there. -/
theorem c7_witness :
    DedupReachable (Function.update (fun _ => (∅ : Finset String)) "kaspa:w"
        (mark_set ∅ "t1")) ∧
      ((Function.update (fun _ => (∅ : Finset String)) "kaspa:w"
          (mark_set ∅ "t1")) "kaspa:w").card ≤ 1000 := by
  have hreach : DedupReachable (Function.update (fun _ => (∅ : Finset String)) "kaspa:w"
      (mark_set ∅ "t1")) :=
    Relation.ReflTransGen.single (DedupStep.mark (fun _ => ∅) "kaspa:w" "t1")
  exact ⟨hreach, c7_size_invariant _ hreach "kaspa:w"⟩

end KaspaBot
